import Mathlib

/-!
A shallow embedding of the client-side session, authentication and checkout
logic of the Knowledge Nexus marketing site (`src/js/auth.js`, `src/js/app.js`
and the static `CONFIG` table).  The in-memory state of the `AuthManager`
singleton is a structure, `localStorage` and `sessionStorage` are records of
nullable string values, and every network interaction is parameterised by the
responses the backend would return, so each operation becomes a pure function
that additionally reports the list of HTTP requests it issued.
-/

namespace KNexus

/-- A user profile as returned by the backend and consumed by `auth.js`
(the code reads `full_name`, `username`, `email` and `profile_picture_url`;
`id` is the backend identifier). -/
structure User where
  id : String
  username : String
  full_name : String
  email : String
  profile_picture_url : String
deriving DecidableEq, Repr

/-- JSON string-character escaping as performed by the platform serializer on
the characters the model distinguishes: a quote or a backslash is preceded by
a backslash, every other character is kept as is. -/
def escChar (c : Char) : List Char :=
  if c = '"' ∨ c = '\\' then ['\\', c] else [c]

/-- Escape a whole character list. -/
def escList : List Char → List Char
  | [] => []
  | c :: cs => escChar c ++ escList cs

/-- The closing brace of the serialized profile object. -/
def rbrace : Char := '\x7d'

/-- Literal text opening the serialized profile and its `id` field. -/
def idLabel : List Char := "\x7b\"id\":\"".data

/-- Literal text between the `id` and `username` values. -/
def usernameLabel : List Char := ",\"username\":\"".data

/-- Literal text between the `username` and `full_name` values. -/
def fullNameLabel : List Char := ",\"full_name\":\"".data

/-- Literal text between the `full_name` and `email` values. -/
def emailLabel : List Char := ",\"email\":\"".data

/-- Literal text between the `email` and `profile_picture_url` values. -/
def pictureLabel : List Char := ",\"profile_picture_url\":\"".data

/-- The character sequence the platform serializer produces for a profile
object: the five fields in declaration order, each value escaped. -/
def stringifyChars (u : User) : List Char :=
  idLabel ++ (escList u.id.data ++ ('"' ::
    (usernameLabel ++ (escList u.username.data ++ ('"' ::
      (fullNameLabel ++ (escList u.full_name.data ++ ('"' ::
        (emailLabel ++ (escList u.email.data ++ ('"' ::
          (pictureLabel ++ (escList u.profile_picture_url.data ++ ('"' ::
            [rbrace]))))))))))))))

/-- `JSON.stringify` on a profile object, modelled as the canonical JSON text
of its five string fields. -/
def stringifyUser (u : User) : String := ⟨stringifyChars u⟩

/-- Consume an expected literal from the front of the input, or fail. -/
def dropLit : List Char → List Char → Option (List Char)
  | [], cs => some cs
  | _ :: _, [] => none
  | l :: ls, c :: cs => if c = l then dropLit ls cs else none

/-- Parse the body of a JSON string up to its closing quote, undoing the
escaping and rejecting malformed escape sequences. -/
def parseStrChars : List Char → Option (List Char × List Char)
  | [] => none
  | c :: cs =>
    if c = '"' then some ([], cs)
    else if c = '\\' then
      match cs with
      | [] => none
      | d :: cs2 =>
        if d = '"' ∨ d = '\\' then
          match parseStrChars cs2 with
          | none => none
          | some (v, rest) => some (d :: v, rest)
        else none
    else
      match parseStrChars cs with
      | none => none
      | some (v, rest) => some (c :: v, rest)

/-- Parse one labelled string field: the literal label (which ends with the
value's opening quote) followed by the escaped value. -/
def parseField (label : List Char) (cs : List Char) : Option (List Char × List Char) :=
  match dropLit label cs with
  | none => none
  | some cs1 => parseStrChars cs1

/-- Parse the character sequence of a serialized profile object. -/
def parseUserChars (cs : List Char) : Option User :=
  match parseField idLabel cs with
  | none => none
  | some (idv, cs1) =>
  match parseField usernameLabel cs1 with
  | none => none
  | some (unv, cs2) =>
  match parseField fullNameLabel cs2 with
  | none => none
  | some (fnv, cs3) =>
  match parseField emailLabel cs3 with
  | none => none
  | some (emv, cs4) =>
  match parseField pictureLabel cs4 with
  | none => none
  | some (ppv, cs5) =>
  if cs5 = [rbrace] then some ⟨⟨idv⟩, ⟨unv⟩, ⟨fnv⟩, ⟨emv⟩, ⟨ppv⟩⟩ else none

/-- `JSON.parse` on a stored profile string: succeeds exactly on the texts the
model's serializer produces, fails (as the platform parser throws) otherwise. -/
def parseUser (s : String) : Option User := parseUserChars s.data

/-- JavaScript truthiness of a nullable string: `null` and the empty string
are falsy, every other string is truthy. -/
def truthyS : Option String → Bool
  | none => false
  | some s => s != ""

/-- The three `localStorage` keys the auth module uses. -/
structure Storage where
  kn_access_token : Option String
  kn_refresh_token : Option String
  kn_user : Option String
deriving DecidableEq, Repr

/-- The `sessionStorage` keys used by the pending-checkout flow in `app.js`. -/
structure SessionStore where
  pending_tier : Option String
  pending_period : Option String
deriving DecidableEq, Repr

/-- The session-relevant in-memory fields of the `AuthManager` singleton (the
two bookkeeping fields set once by `init` are inert for every modelled
operation and are omitted). -/
structure AuthState where
  isAuthenticated : Bool
  user : Option User
  accessToken : Option String
  refreshToken : Option String
deriving DecidableEq, Repr

/-- The state established by the `AuthManager` constructor. -/
def initState : AuthState :=
  { isAuthenticated := false, user := none, accessToken := none, refreshToken := none }

/-- A backend HTTP response, as far as the modelled code inspects it: the
status plus the JSON body fields the handlers read. -/
structure HttpResponse where
  status : Nat
  access_token : Option String := none
  refresh_token : Option String := none
  user : Option User := none
  checkout_url : Option String := none
deriving DecidableEq, Repr

/-- The `Response.ok` flag of the fetch API: status in the 200..299 range. -/
def HttpResponse.ok (r : HttpResponse) : Bool :=
  decide (200 ≤ r.status) && decide (r.status < 300)

/-- One HTTP request issued by the client: its URL, the bearer token attached
(if any) and the `price_id` carried in the JSON body (if any). -/
structure NetCall where
  url : String
  bearer : Option String
  price_id : Option String
deriving DecidableEq, Repr

/-- The configured backend base URL (`CONFIG.api.baseUrl`). -/
def baseUrl : String := "https://api.knowledge-nexus.io"

/-- The token-refresh endpoint used by `refreshAccessToken`. -/
def refreshUrl : String := baseUrl ++ "/api/auth/refresh"

/-- The checkout-session endpoint (`CONFIG.api.endpoints.checkout`). -/
def checkoutUrl : String := baseUrl ++ "/api/v1/checkout/session"

/-- The profile endpoint (`CONFIG.api.endpoints.userProfile`). -/
def userProfileUrl : String := baseUrl ++ "/api/auth/me"

/-- The request `refreshAccessToken` sends: a bare POST, no bearer header. -/
def refreshCall : NetCall := { url := refreshUrl, bearer := none, price_id := none }

/-- `AuthManager.saveSession`: each of the three keys is written only when the
corresponding in-memory field is truthy (the `if (this.x)` guards), the user
profile being serialized first. -/
def saveSession (st : AuthState) (stg : Storage) : Storage :=
  let stg1 := if truthyS st.accessToken then
    { stg with kn_access_token := st.accessToken } else stg
  let stg2 := if truthyS st.refreshToken then
    { stg1 with kn_refresh_token := st.refreshToken } else stg1
  match st.user with
  | some u => { stg2 with kn_user := some (stringifyUser u) }
  | none => stg2

/-- `AuthManager.loadSession`: copies the two token entries into memory, then,
when a user entry is present and truthy, parses it; only a successful parse
sets the user and the authenticated flag, a parse failure is swallowed.  The
function performs no storage writes, so the storage component is returned
unchanged. -/
def loadSession (st : AuthState) (stg : Storage) : AuthState × Storage :=
  let st1 := { st with
    accessToken := stg.kn_access_token
    refreshToken := stg.kn_refresh_token }
  match stg.kn_user with
  | none => (st1, stg)
  | some s =>
    if s = "" then (st1, stg)
    else
      match parseUser s with
      | some u => ({ st1 with user := some u, isAuthenticated := true }, stg)
      | none => (st1, stg)

/-- `AuthManager.clearSession`: resets the four in-memory fields and removes
the three storage keys. -/
def clearSession (st : AuthState) (stg : Storage) : AuthState × Storage :=
  ({ st with
      accessToken := none
      refreshToken := none
      user := none
      isAuthenticated := false },
   { stg with kn_access_token := none, kn_refresh_token := none, kn_user := none })

/-- `AuthManager.logout`: clears the in-memory fields and removes the three
storage keys (the Google-widget revocation, the UI update and the page reload
have no effect on the modelled state). -/
def logout (st : AuthState) (stg : Storage) : AuthState × Storage :=
  ({ st with
      accessToken := none
      refreshToken := none
      user := none
      isAuthenticated := false },
   { stg with kn_access_token := none, kn_refresh_token := none, kn_user := none })

/-- Outcome record of `refreshAccessToken`: the updated state and storage,
the boolean the function returns, and the HTTP requests it issued. -/
structure RefreshOut where
  st : AuthState
  stg : Storage
  ok : Bool
  calls : List NetCall

/-- `AuthManager.refreshAccessToken`, parameterised by the response `rR` the
refresh endpoint would return: a falsy refresh token returns `false` without
any request; otherwise one POST is issued, and on an ok response the access
token is replaced, the refresh token is replaced only when the body carries a
truthy one, and the session is persisted. -/
def refreshAccessToken (st : AuthState) (stg : Storage) (rR : HttpResponse) : RefreshOut :=
  if truthyS st.refreshToken then
    if rR.ok then
      let st1 := { st with
        accessToken := rR.access_token
        refreshToken := if truthyS rR.refresh_token then rR.refresh_token else st.refreshToken }
      { st := st1, stg := saveSession st1 stg, ok := true, calls := [refreshCall] }
    else
      { st := st, stg := stg, ok := false, calls := [refreshCall] }
  else
    { st := st, stg := stg, ok := false, calls := [] }

/-- Errors `fetchWithAuth` can throw. -/
inductive FetchErr where
  | notAuthenticated
  | sessionExpired
deriving DecidableEq, Repr

/-- Outcome record of `fetchWithAuth`. -/
structure FetchOut where
  result : Except FetchErr HttpResponse
  st : AuthState
  stg : Storage
  calls : List NetCall

/-- `AuthManager.fetchWithAuth url options`, with the body's `price_id` (the
only body field the modelled callers send) passed as `pid` and the network
parameterised by the response `r1` to the original request, `rR` to a refresh
attempt and `r2` to a retry.  A falsy access token throws before any request;
a 401 triggers exactly one refresh attempt, a successful refresh retries the
original request once with the new token, and a failed refresh clears the
session and throws. -/
def fetchWithAuth (st : AuthState) (stg : Storage) (url : String) (pid : Option String)
    (r1 rR r2 : HttpResponse) : FetchOut :=
  if truthyS st.accessToken then
    let c1 : NetCall := { url := url, bearer := st.accessToken, price_id := pid }
    if r1.status = 401 then
      let rf := refreshAccessToken st stg rR
      if rf.ok then
        { result := .ok r2, st := rf.st, stg := rf.stg,
          calls := c1 :: (rf.calls ++ [{ url := url, bearer := rf.st.accessToken, price_id := pid }]) }
      else
        let cleared := clearSession rf.st rf.stg
        { result := .error .sessionExpired, st := cleared.1, stg := cleared.2,
          calls := c1 :: rf.calls }
    else
      { result := .ok r1, st := st, stg := stg, calls := [c1] }
  else
    { result := .error .notAuthenticated, st := st, stg := stg, calls := [] }

/-- `AuthManager.verifySession`: fetches the profile through `fetchWithAuth`;
an ok response stores the returned profile, sets the authenticated flag and
persists; a non-ok response clears the session; a thrown error is caught and
leaves whatever state `fetchWithAuth` produced. -/
def verifySession (st : AuthState) (stg : Storage) (r1 rR r2 : HttpResponse) :
    AuthState × Storage :=
  let f := fetchWithAuth st stg userProfileUrl none r1 rR r2
  match f.result with
  | .error _ => (f.st, f.stg)
  | .ok resp =>
    if resp.ok then
      let st1 := { f.st with user := resp.user, isAuthenticated := true }
      (st1, saveSession st1 f.stg)
    else
      clearSession f.st f.stg

/-- The JSON body of a successful credential exchange
(`POST /api/auth/google`). -/
structure AuthData where
  access_token : Option String
  refresh_token : Option String
  user : Option User
  is_new_user : Bool
deriving DecidableEq, Repr

/-- The success path of `AuthManager.handleGoogleCallback` once the backend
has accepted the credential: tokens and profile are stored, the authenticated
flag is set, and the session is persisted. -/
def handleGoogleCallbackSuccess (st : AuthState) (stg : Storage) (d : AuthData) :
    AuthState × Storage :=
  let st1 := { st with
    accessToken := d.access_token
    refreshToken := d.refresh_token
    user := d.user
    isAuthenticated := true }
  (st1, saveSession st1 stg)

/-- The static `CONFIG.stripe.priceIds` tier-and-period table. -/
def stripePriceIds : String → String → Option String
  | "personal", "monthly" => some "price_personal_monthly"
  | "personal", "annual" => some "price_personal_annual"
  | "pro", "monthly" => some "price_pro_monthly"
  | "pro", "annual" => some "price_pro_annual"
  | "family", "monthly" => some "price_family_monthly"
  | "family", "annual" => some "price_family_annual"
  | "team", "monthly" => some "price_team_monthly"
  | "team", "annual" => some "price_team_annual"
  | "business", "monthly" => some "price_business_monthly"
  | "business", "annual" => some "price_business_annual"
  | _, _ => none

/-- What `createCheckoutSession` ends with: a redirect to the returned
checkout URL, or an error alert. -/
inductive CheckoutResult where
  | redirected (url : Option String)
  | errorShown
deriving DecidableEq, Repr

/-- Outcome record of `createCheckoutSession`. -/
structure CheckoutOut where
  result : CheckoutResult
  st : AuthState
  stg : Storage
  calls : List NetCall

/-- `createCheckoutSession tier` (app.js) with the current pricing mode passed
as `period`: looks the pair up in the static price table and throws (caught as
an error alert, zero requests) when unmapped; otherwise POSTs the price id to
the checkout endpoint through `fetchWithAuth` and redirects to the returned
URL on an ok response. -/
def createCheckoutSession (tier period : String) (st : AuthState) (stg : Storage)
    (r1 rR r2 : HttpResponse) : CheckoutOut :=
  match stripePriceIds tier period with
  | none => { result := .errorShown, st := st, stg := stg, calls := [] }
  | some pid =>
    let f := fetchWithAuth st stg checkoutUrl (some pid) r1 rR r2
    match f.result with
    | .error _ => { result := .errorShown, st := f.st, stg := f.stg, calls := f.calls }
    | .ok resp =>
      if resp.ok then
        { result := .redirected resp.checkout_url, st := f.st, stg := f.stg, calls := f.calls }
      else
        { result := .errorShown, st := f.st, stg := f.stg, calls := f.calls }

/-- The branch `selectPlan` takes. -/
inductive PlanOutcome where
  | portalEntry
  | signupFlow
  | salesContact
  | checkout (r : CheckoutResult)
deriving DecidableEq, Repr

/-- Outcome record of `selectPlan`. -/
structure PlanOut where
  outcome : PlanOutcome
  st : AuthState
  stg : Storage
  sess : SessionStore
  calls : List NetCall

/-- `selectPlan tier` (app.js) with the global pricing mode passed as `mode`:
the free tier routes to the portal or to signup, enterprise routes to a sales
mail, an unauthenticated user gets the pending tier and period stored before
signup, and an authenticated user goes straight to checkout. -/
def selectPlan (tier mode : String) (st : AuthState) (stg : Storage)
    (sess : SessionStore) (r1 rR r2 : HttpResponse) : PlanOut :=
  if tier = "free" then
    { outcome := if st.isAuthenticated then .portalEntry else .signupFlow,
      st := st, stg := stg, sess := sess, calls := [] }
  else if tier = "enterprise" then
    { outcome := .salesContact, st := st, stg := stg, sess := sess, calls := [] }
  else if st.isAuthenticated = false then
    { outcome := .signupFlow, st := st, stg := stg,
      sess := { sess with pending_tier := some tier, pending_period := some mode },
      calls := [] }
  else
    let c := createCheckoutSession tier mode st stg r1 rR r2
    { outcome := .checkout c.result, st := c.st, stg := c.stg, sess := sess, calls := c.calls }

/-- Outcome record of `checkPendingActions`: `fired` is the tier-and-period
pair `createCheckoutSession` was invoked with, if it was. -/
structure PendingOut where
  fired : Option (String × String)
  result : Option CheckoutResult
  mode : String
  st : AuthState
  stg : Storage
  sess : SessionStore
  calls : List NetCall

/-- `checkPendingActions` (app.js): when a truthy pending tier is stored and
the user is authenticated, both pending keys are removed, the pricing mode
becomes the stored period (defaulting to monthly when falsy) and
`createCheckoutSession` runs for the stored tier; otherwise nothing changes. -/
def checkPendingActions (st : AuthState) (stg : Storage) (sess : SessionStore)
    (mode : String) (r1 rR r2 : HttpResponse) : PendingOut :=
  match sess.pending_tier with
  | none =>
    { fired := none, result := none, mode := mode, st := st, stg := stg,
      sess := sess, calls := [] }
  | some tier =>
    if tier = "" then
      { fired := none, result := none, mode := mode, st := st, stg := stg,
        sess := sess, calls := [] }
    else if st.isAuthenticated then
      let mode1 := match sess.pending_period with
        | none => "monthly"
        | some p => if p = "" then "monthly" else p
      let c := createCheckoutSession tier mode1 st stg r1 rR r2
      { fired := some (tier, mode1), result := some c.result, mode := mode1,
        st := c.st, stg := c.stg,
        sess := { pending_tier := none, pending_period := none }, calls := c.calls }
    else
      { fired := none, result := none, mode := mode, st := st, stg := stg,
        sess := sess, calls := [] }

/-- The states of the `AuthManager` reachable from construction by the
session-mutating operations of `auth.js`, over arbitrary initial storage and
arbitrary backend responses. -/
inductive Reachable : AuthState → Storage → Prop where
  | construct (stg : Storage) : Reachable initState stg
  | load (st : AuthState) (stg : Storage) : Reachable st stg →
      Reachable (loadSession st stg).1 (loadSession st stg).2
  | callback (st : AuthState) (stg : Storage) (d : AuthData) : Reachable st stg →
      Reachable (handleGoogleCallbackSuccess st stg d).1 (handleGoogleCallbackSuccess st stg d).2
  | verify (st : AuthState) (stg : Storage) (r1 rR r2 : HttpResponse) : Reachable st stg →
      Reachable (verifySession st stg r1 rR r2).1 (verifySession st stg r1 rR r2).2
  | refresh (st : AuthState) (stg : Storage) (rR : HttpResponse) : Reachable st stg →
      Reachable (refreshAccessToken st stg rR).st (refreshAccessToken st stg rR).stg
  | fetchStep (st : AuthState) (stg : Storage) (url : String) (pid : Option String)
      (r1 rR r2 : HttpResponse) : Reachable st stg →
      Reachable (fetchWithAuth st stg url pid r1 rR r2).st (fetchWithAuth st stg url pid r1 rR r2).stg
  | clear (st : AuthState) (stg : Storage) : Reachable st stg →
      Reachable (clearSession st stg).1 (clearSession st stg).2
  | logoutStep (st : AuthState) (stg : Storage) : Reachable st stg →
      Reachable (logout st stg).1 (logout st stg).2

/-- The invariant of the session data model: a non-null user profile implies
the authenticated flag. -/
def AuthInv (st : AuthState) : Prop := st.user.isSome = true → st.isAuthenticated = true

/-- Sample profile used by the concrete instantiations below. -/
def userW : User :=
  { id := "u1", username := "alice", full_name := "Alice A", email := "a@b.io",
    profile_picture_url := "https://pic" }

/-- Empty browser storage. -/
def stgEmpty : Storage := { kn_access_token := none, kn_refresh_token := none, kn_user := none }

/-- A signed-in state with truthy tokens. -/
def stA : AuthState :=
  { isAuthenticated := true, user := some userW, accessToken := some "tokA",
    refreshToken := some "refA" }

/-- Storage matching `stA`'s tokens. -/
def stgA : Storage :=
  { kn_access_token := some "tokA", kn_refresh_token := some "refA", kn_user := none }

/-- A state holding an access token but no refresh token. -/
def stB : AuthState :=
  { isAuthenticated := true, user := none, accessToken := some "tokA", refreshToken := none }

/-- A 401 response. -/
def resp401 : HttpResponse := { status := 401 }

/-- A plain ok response. -/
def resp200 : HttpResponse := { status := 200 }

/-- A server-error response. -/
def resp500 : HttpResponse := { status := 500 }

/-- An ok refresh response carrying only a fresh access token. -/
def respOkTok : HttpResponse := { status := 200, access_token := some "tokB" }

/-- A session whose access token is the empty string (non-null but falsy). -/
def stC3 : AuthState :=
  { isAuthenticated := true, user := some userW, accessToken := some "",
    refreshToken := some "refA" }

/-- Prior storage holding a different access token than `stC3`. -/
def stgC3 : Storage :=
  { kn_access_token := some "prevTok", kn_refresh_token := some "refA", kn_user := none }

/-- A successful credential-exchange body. -/
def dataW : AuthData :=
  { access_token := some "tokA", refresh_token := some "refA", user := some userW,
    is_new_user := false }

/-- A state whose in-memory refresh token differs from the stored one. -/
def stC10 : AuthState :=
  { isAuthenticated := true, user := none, accessToken := some "tokA",
    refreshToken := some "ref1" }

/-- Storage holding a refresh token other than `stC10`'s. -/
def stgC10 : Storage :=
  { kn_access_token := some "tokA", kn_refresh_token := some "oldRef", kn_user := none }

/-- An ok refresh response with an access token and no refresh token. -/
def respC10 : HttpResponse := { status := 200, access_token := some "tok2" }

/-- Storage holding only an access token, as used for C7. -/
def stgC7 : Storage :=
  { kn_access_token := some "tokA", kn_refresh_token := none, kn_user := none }

/-- Storage whose user entry is not parseable JSON, as used for C9. -/
def stgC9 : Storage :=
  { kn_access_token := some "tokA", kn_refresh_token := some "refA",
    kn_user := some "not json" }

/-- Consuming an expected literal from its own text leaves the tail. -/
theorem dropLit_append (l cs : List Char) : dropLit l (l ++ cs) = some cs := by
  induction l with
  | nil => rfl
  | cons c ls ih => simp [dropLit, ih]

/-- Parsing an escaped character list up to a closing quote recovers it. -/
theorem parseStrChars_escList (l rest : List Char) :
    parseStrChars (escList l ++ '"' :: rest) = some (l, rest) := by
  induction l with
  | nil => rw [escList, List.nil_append, parseStrChars.eq_def]; simp
  | cons c cs ih =>
    by_cases hc : c = '"' ∨ c = '\\'
    · rw [escList, escChar, if_pos hc, List.cons_append, List.cons_append,
        parseStrChars.eq_def]
      simp [hc, ih]
    · push_neg at hc
      rw [escList, escChar, if_neg (by simp [hc.1, hc.2]), List.cons_append,
        List.nil_append, parseStrChars.eq_def]
      simp [hc.1, hc.2, ih]

/-- Parsing a labelled field from its own serialization recovers the value. -/
theorem parseField_escList (label v rest : List Char) :
    parseField label (label ++ (escList v ++ '"' :: rest)) = some (v, rest) := by
  simp [parseField, dropLit_append, parseStrChars_escList]

/-- Character-level round trip of the profile serialization. -/
theorem parseUserChars_stringifyChars (u : User) :
    parseUserChars (stringifyChars u) = some u := by
  simp [parseUserChars, stringifyChars, parseField_escList]

/-- Round trip: parsing a serialized profile returns the same profile. -/
theorem parseUser_stringifyUser (u : User) : parseUser (stringifyUser u) = some u := by
  have h : (stringifyUser u).data = stringifyChars u := rfl
  rw [parseUser, h, parseUserChars_stringifyChars]

/-- A serialized profile is never the empty string. -/
theorem stringifyUser_ne_empty (u : User) : stringifyUser u ≠ "" := by
  intro h
  have hd : (stringifyUser u).data = ("" : String).data := congrArg String.data h
  have hd2 : stringifyChars u = [] := hd
  rw [stringifyChars] at hd2
  rcases List.append_eq_nil.mp hd2 with ⟨h1, _⟩
  have : idLabel ≠ [] := by decide
  exact this h1

/-- The constructor state satisfies the profile-implies-authenticated invariant. -/
theorem authInv_initState : AuthInv initState := by
  intro hu
  simp [initState] at hu

/-- `clearSession` reestablishes the invariant unconditionally. -/
theorem authInv_clearSession (st : AuthState) (stg : Storage) :
    AuthInv (clearSession st stg).1 := by
  intro hu
  simp [clearSession] at hu

/-- `logout` reestablishes the invariant unconditionally. -/
theorem authInv_logout (st : AuthState) (stg : Storage) :
    AuthInv (logout st stg).1 := by
  intro hu
  simp [logout] at hu

/-- `loadSession` preserves the invariant. -/
theorem authInv_loadSession (st : AuthState) (stg : Storage) (h : AuthInv st) :
    AuthInv (loadSession st stg).1 := by
  unfold AuthInv
  cases hku : stg.kn_user with
  | none =>
    simp only [loadSession, hku]
    exact h
  | some s =>
    simp only [loadSession, hku]
    by_cases hs : s = ""
    · rw [if_pos hs]
      exact h
    · rw [if_neg hs]
      cases hp : parseUser s with
      | none =>
        simp only [hp]
        exact h
      | some u =>
        simp only [hp]
        intro _
        trivial

/-- `refreshAccessToken` never touches the user profile or the flag. -/
theorem refreshAccessToken_user_eq (st : AuthState) (stg : Storage) (rR : HttpResponse) :
    (refreshAccessToken st stg rR).st.user = st.user ∧
    (refreshAccessToken st stg rR).st.isAuthenticated = st.isAuthenticated := by
  simp only [refreshAccessToken]
  split_ifs <;> simp

/-- `refreshAccessToken` preserves the invariant. -/
theorem authInv_refresh (st : AuthState) (stg : Storage) (rR : HttpResponse)
    (h : AuthInv st) : AuthInv (refreshAccessToken st stg rR).st := by
  intro hu
  rw [(refreshAccessToken_user_eq st stg rR).1] at hu
  rw [(refreshAccessToken_user_eq st stg rR).2]
  exact h hu

/-- `fetchWithAuth` either leaves profile and flag untouched (possibly through
a refresh) or ends on a cleared session. -/
theorem fetchWithAuth_st_user (st : AuthState) (stg : Storage) (url : String)
    (pid : Option String) (r1 rR r2 : HttpResponse) :
    ((fetchWithAuth st stg url pid r1 rR r2).st.user = st.user ∧
     (fetchWithAuth st stg url pid r1 rR r2).st.isAuthenticated = st.isAuthenticated) ∨
    (fetchWithAuth st stg url pid r1 rR r2).st.user = none := by
  simp only [fetchWithAuth]
  split_ifs
  · left
    exact refreshAccessToken_user_eq st stg rR
  · right
    simp [clearSession]
  · left
    exact ⟨rfl, rfl⟩
  · left
    exact ⟨rfl, rfl⟩

/-- `fetchWithAuth` preserves the invariant. -/
theorem authInv_fetchWithAuth (st : AuthState) (stg : Storage) (url : String)
    (pid : Option String) (r1 rR r2 : HttpResponse) (h : AuthInv st) :
    AuthInv (fetchWithAuth st stg url pid r1 rR r2).st := by
  intro hu
  rcases fetchWithAuth_st_user st stg url pid r1 rR r2 with ⟨h1, h2⟩ | hn
  · rw [h1] at hu
    rw [h2]
    exact h hu
  · rw [hn] at hu
    simp at hu

/-- `verifySession` preserves the invariant. -/
theorem authInv_verifySession (st : AuthState) (stg : Storage) (r1 rR r2 : HttpResponse)
    (h : AuthInv st) : AuthInv (verifySession st stg r1 rR r2).1 := by
  unfold AuthInv
  cases hm : (fetchWithAuth st stg userProfileUrl none r1 rR r2).result with
  | error e =>
    simp only [verifySession, hm]
    exact authInv_fetchWithAuth st stg userProfileUrl none r1 rR r2 h
  | ok resp =>
    simp only [verifySession, hm]
    by_cases hok : resp.ok = true
    · rw [if_pos hok]
      intro _
      rfl
    · rw [if_neg hok]
      exact authInv_clearSession _ _

/-- The callback success path sets the flag, so the invariant holds after it. -/
theorem authInv_callback (st : AuthState) (stg : Storage) (d : AuthData) :
    AuthInv (handleGoogleCallbackSuccess st stg d).1 := by
  intro hu
  rfl

/-- Every reachable state satisfies the invariant. -/
theorem reachable_authInv (st : AuthState) (stg : Storage) (h : Reachable st stg) :
    AuthInv st := by
  induction h with
  | construct stg => exact authInv_initState
  | load st stg _ ih => exact authInv_loadSession st stg ih
  | callback st stg d _ => exact authInv_callback st stg d
  | verify st stg r1 rR r2 _ ih => exact authInv_verifySession st stg r1 rR r2 ih
  | refresh st stg rR _ ih => exact authInv_refresh st stg rR ih
  | fetchStep st stg url pid r1 rR r2 _ ih => exact authInv_fetchWithAuth st stg url pid r1 rR r2 ih
  | clear st stg _ => exact authInv_clearSession st stg
  | logoutStep st stg _ => exact authInv_logout st stg

/-- A truthy nullable string is in particular non-null. -/
theorem truthyS_isSome (o : Option String) (h : truthyS o = true) : o.isSome = true := by
  cases o with
  | none => simp [truthyS] at h
  | some s => rfl

/-- The access-token entry `saveSession` leaves behind. -/
theorem saveSession_access (st : AuthState) (stg : Storage) :
    (saveSession st stg).kn_access_token =
      if truthyS st.accessToken then st.accessToken else stg.kn_access_token := by
  cases hu : st.user with
  | none => simp only [saveSession, hu]; split_ifs <;> rfl
  | some u => simp only [saveSession, hu]; split_ifs <;> rfl

/-- The refresh-token entry `saveSession` leaves behind. -/
theorem saveSession_refresh (st : AuthState) (stg : Storage) :
    (saveSession st stg).kn_refresh_token =
      if truthyS st.refreshToken then st.refreshToken else stg.kn_refresh_token := by
  cases hu : st.user with
  | none => simp only [saveSession, hu]; split_ifs <;> rfl
  | some u => simp only [saveSession, hu]; split_ifs <;> rfl

/-- The user entry `saveSession` leaves behind. -/
theorem saveSession_user_eq (st : AuthState) (stg : Storage) :
    (saveSession st stg).kn_user =
      match st.user with
      | some u => some (stringifyUser u)
      | none => stg.kn_user := by
  cases hu : st.user with
  | none => simp only [saveSession, hu]; split_ifs <;> rfl
  | some u => simp [saveSession, hu]

/-- C4: in every state of the `AuthManager` reachable by any sequence of its
operations (construction, `loadSession`, `handleGoogleCallback` success,
`verifySession`, `refreshAccessToken`, `fetchWithAuth`, `clearSession`,
`logout`), a non-null user profile implies `isAuthenticated = true`. -/
theorem reachable_user_auth (st : AuthState) (stg : Storage)
    (h : Reachable st stg) (hu : st.user.isSome = true) : st.isAuthenticated = true :=
  reachable_authInv st stg h hu

/-- C4 witness: a concrete reachable state with a profile present, on which
the theorem yields the authenticated flag. -/
theorem reachable_user_auth_witness :
    (handleGoogleCallbackSuccess initState stgEmpty dataW).1.isAuthenticated = true :=
  reachable_user_auth _ _
    (Reachable.callback initState stgEmpty dataW (Reachable.construct stgEmpty)) rfl

/-- C7: with an access token stored but no serialized profile, `loadSession`
leaves the authenticated flag false even though the loaded token is non-null;
profile presence alone gates the flag. -/
theorem load_token_only_not_auth (st : AuthState) (stg : Storage) (t : String)
    (h0 : st.isAuthenticated = false) (hu0 : st.user = none)
    (ht : stg.kn_access_token = some t) (hnu : stg.kn_user = none) :
    (loadSession st stg).1.isAuthenticated = false ∧
    (loadSession st stg).1.accessToken = some t ∧
    (loadSession st stg).1.user = none := by
  simp only [loadSession, hnu]
  exact ⟨h0, ht, hu0⟩

/-- C7 witness: loading a storage that holds only an access token from the
constructor state keeps the flag false while the token is loaded. -/
theorem load_token_only_not_auth_witness :
    (loadSession initState stgC7).1.isAuthenticated = false ∧
    (loadSession initState stgC7).1.accessToken = some "tokA" ∧
    (loadSession initState stgC7).1.user = none :=
  load_token_only_not_auth initState stgC7 "tokA" rfl rfl rfl rfl

/-- C8: `saveSession` writes each storage field only when the corresponding
session field is present, and every field absent from the session leaves the
previously stored value unchanged. -/
theorem saveSession_frame (st : AuthState) (stg : Storage) :
    (st.accessToken = none → (saveSession st stg).kn_access_token = stg.kn_access_token) ∧
    (st.refreshToken = none → (saveSession st stg).kn_refresh_token = stg.kn_refresh_token) ∧
    (st.user = none → (saveSession st stg).kn_user = stg.kn_user) ∧
    ((saveSession st stg).kn_access_token ≠ stg.kn_access_token → st.accessToken.isSome = true) ∧
    ((saveSession st stg).kn_refresh_token ≠ stg.kn_refresh_token → st.refreshToken.isSome = true) ∧
    ((saveSession st stg).kn_user ≠ stg.kn_user → st.user.isSome = true) := by
  refine ⟨?_, ?_, ?_, ?_, ?_, ?_⟩
  · intro h
    rw [saveSession_access, h]
    rfl
  · intro h
    rw [saveSession_refresh, h]
    rfl
  · intro h
    rw [saveSession_user_eq, h]
  · intro h
    rw [saveSession_access] at h
    split_ifs at h with ht
    · exact truthyS_isSome _ ht
    · exact absurd rfl h
  · intro h
    rw [saveSession_refresh] at h
    split_ifs at h with ht
    · exact truthyS_isSome _ ht
    · exact absurd rfl h
  · intro h
    rw [saveSession_user_eq] at h
    cases hu : st.user with
    | none => rw [hu] at h; exact absurd rfl h
    | some u => rfl

/-- C8 witness: on a session holding no fields at all, `saveSession` leaves
every stored entry unchanged. -/
theorem saveSession_frame_witness :
    (saveSession initState stgC3).kn_access_token = stgC3.kn_access_token ∧
    (saveSession initState stgC3).kn_refresh_token = stgC3.kn_refresh_token ∧
    (saveSession initState stgC3).kn_user = stgC3.kn_user :=
  ⟨(saveSession_frame initState stgC3).1 rfl,
   (saveSession_frame initState stgC3).2.1 rfl,
   (saveSession_frame initState stgC3).2.2.1 rfl⟩

/-- C9: when the stored profile entry is not parseable, `loadSession` swallows
the failure: the profile stays absent, the flag is untouched, both raw tokens
are loaded into memory, and storage is not modified. -/
theorem load_bad_json (st : AuthState) (stg : Storage) (s : String)
    (hs : stg.kn_user = some s) (hbad : parseUser s = none) (hu0 : st.user = none) :
    (loadSession st stg).1.user = none ∧
    (loadSession st stg).1.isAuthenticated = st.isAuthenticated ∧
    (loadSession st stg).1.accessToken = stg.kn_access_token ∧
    (loadSession st stg).1.refreshToken = stg.kn_refresh_token ∧
    (loadSession st stg).2 = stg := by
  simp only [loadSession, hs]
  by_cases he : s = ""
  · rw [if_pos he]
    exact ⟨hu0, rfl, rfl, rfl, rfl⟩
  · rw [if_neg he]
    simp only [hbad]
    exact ⟨hu0, trivial, trivial, trivial, trivial⟩

/-- C9 witness: the entry `"not json"` fails to parse and is swallowed, with
both tokens retained. -/
theorem load_bad_json_witness :
    (loadSession initState stgC9).1.user = none ∧
    (loadSession initState stgC9).1.isAuthenticated = initState.isAuthenticated ∧
    (loadSession initState stgC9).1.accessToken = stgC9.kn_access_token ∧
    (loadSession initState stgC9).1.refreshToken = stgC9.kn_refresh_token ∧
    (loadSession initState stgC9).2 = stgC9 :=
  load_bad_json initState stgC9 "not json" rfl rfl rfl

/-- C3 counterexample: a session whose three fields are all non-null but whose
access token is the empty string is skipped by the truthiness guard of
`saveSession`, so the following load returns the previously stored token
instead of the session's own. -/
theorem save_load_roundtrip_cex :
    stC3.accessToken = some "" ∧ stC3.refreshToken = some "refA" ∧
    stC3.user = some userW ∧
    (loadSession initState (saveSession stC3 stgC3)).1.accessToken = some "prevTok" ∧
    (loadSession initState (saveSession stC3 stgC3)).1.accessToken ≠ stC3.accessToken := by
  have h4 : (loadSession initState (saveSession stC3 stgC3)).1.accessToken = some "prevTok" := rfl
  refine ⟨rfl, rfl, rfl, h4, ?_⟩
  rw [h4]
  decide

/-- C3 (amended): for a session whose access and refresh tokens are present
and non-empty and whose profile is present, `saveSession` followed by
`loadSession` restores exactly the same token strings and an equal profile. -/
theorem save_load_roundtrip (st st0 : AuthState) (stg : Storage) (a r : String) (u : User)
    (hA : st.accessToken = some a) (ha : a ≠ "")
    (hR : st.refreshToken = some r) (hr : r ≠ "")
    (hU : st.user = some u) :
    (loadSession st0 (saveSession st stg)).1.accessToken = some a ∧
    (loadSession st0 (saveSession st stg)).1.refreshToken = some r ∧
    (loadSession st0 (saveSession st stg)).1.user = some u := by
  have hacc : (saveSession st stg).kn_access_token = some a := by
    rw [saveSession_access, hA]
    simp [truthyS, ha]
  have href : (saveSession st stg).kn_refresh_token = some r := by
    rw [saveSession_refresh, hR]
    simp [truthyS, hr]
  have huser : (saveSession st stg).kn_user = some (stringifyUser u) := by
    rw [saveSession_user_eq, hU]
  simp only [loadSession, huser]
  rw [if_neg (stringifyUser_ne_empty u)]
  simp only [parseUser_stringifyUser]
  exact ⟨hacc, href, trivial⟩

/-- C3 witness: saving the signed-in sample session over empty storage and
loading it back restores its tokens and profile. -/
theorem save_load_roundtrip_witness :
    (loadSession initState (saveSession stA stgEmpty)).1.accessToken = some "tokA" ∧
    (loadSession initState (saveSession stA stgEmpty)).1.refreshToken = some "refA" ∧
    (loadSession initState (saveSession stA stgEmpty)).1.user = some userW :=
  save_load_roundtrip stA initState stgEmpty "tokA" "refA" userW rfl (by decide) rfl
    (by decide) rfl

/-- C1 counterexample: with a truthy access token and a refresh token the
backend accepts, a 401 on the original request makes `fetchWithAuth` issue
three network requests in total (original, refresh, retry), not two. -/
theorem fetchWithAuth_401_refresh_cex :
    resp401.status = 401 ∧ respOkTok.ok = true ∧
    (fetchWithAuth stA stgA userProfileUrl none resp401 respOkTok resp200).calls.length = 3 ∧
    (fetchWithAuth stA stgA userProfileUrl none resp401 respOkTok resp200).calls.length ≠ 2 := by
  have h3 : (fetchWithAuth stA stgA userProfileUrl none resp401 respOkTok resp200).calls.length = 3 := rfl
  refine ⟨rfl, rfl, h3, ?_⟩
  rw [h3]
  decide

/-- C1 (amended): given a truthy access token, a truthy refresh token, a 401
on the original request and an ok refresh response, `fetchWithAuth` issues
exactly three network calls in total - the original request, one refresh call
and one retry of the original bearing the refreshed token - and returns the
response of the retried request. -/
theorem fetchWithAuth_401_refresh_ok (st : AuthState) (stg : Storage) (url : String)
    (pid : Option String) (r1 rR r2 : HttpResponse)
    (ha : truthyS st.accessToken = true) (hr : truthyS st.refreshToken = true)
    (h401 : r1.status = 401) (hok : rR.ok = true) :
    (fetchWithAuth st stg url pid r1 rR r2).result = Except.ok r2 ∧
    (fetchWithAuth st stg url pid r1 rR r2).calls =
      [{ url := url, bearer := st.accessToken, price_id := pid },
       refreshCall,
       { url := url, bearer := rR.access_token, price_id := pid }] := by
  simp [fetchWithAuth, refreshAccessToken, ha, hr, h401, hok]

/-- C1 witness: the amended statement at a concrete signed-in state. -/
theorem fetchWithAuth_401_refresh_ok_witness :
    (fetchWithAuth stA stgA userProfileUrl none resp401 respOkTok resp200).result =
      Except.ok resp200 ∧
    (fetchWithAuth stA stgA userProfileUrl none resp401 respOkTok resp200).calls =
      [{ url := userProfileUrl, bearer := some "tokA", price_id := none },
       refreshCall,
       { url := userProfileUrl, bearer := some "tokB", price_id := none }] :=
  fetchWithAuth_401_refresh_ok stA stgA userProfileUrl none resp401 respOkTok resp200
    rfl rfl rfl rfl

/-- C2 counterexample: with a non-null access token but no refresh token, a
401 followed by the (immediately failing) refresh attempt produces one network
call in total, not two - the session is still cleared and the call fails. -/
theorem fetchWithAuth_401_refresh_fail_cex :
    stB.accessToken = some "tokA" ∧ stB.refreshToken = none ∧ resp401.status = 401 ∧
    (refreshAccessToken stB stgA resp500).ok = false ∧
    (fetchWithAuth stB stgA userProfileUrl none resp401 resp500 resp200).calls.length = 1 ∧
    (fetchWithAuth stB stgA userProfileUrl none resp401 resp500 resp200).calls.length ≠ 2 := by
  have h1 : (fetchWithAuth stB stgA userProfileUrl none resp401 resp500 resp200).calls.length = 1 := rfl
  refine ⟨rfl, rfl, rfl, rfl, h1, ?_⟩
  rw [h1]
  decide

/-- C2 (amended): given a truthy access token and a truthy refresh token, a
401 on the original request and a non-ok refresh response, `fetchWithAuth`
issues exactly two network calls in total (the original request and the
refresh call, no third), clears the session - all four in-memory fields and
all three storage keys - and fails with the session-expired error. -/
theorem fetchWithAuth_401_refresh_fail (st : AuthState) (stg : Storage) (url : String)
    (pid : Option String) (r1 rR r2 : HttpResponse)
    (ha : truthyS st.accessToken = true) (hr : truthyS st.refreshToken = true)
    (h401 : r1.status = 401) (hfail : rR.ok = false) :
    (fetchWithAuth st stg url pid r1 rR r2).result = Except.error FetchErr.sessionExpired ∧
    (fetchWithAuth st stg url pid r1 rR r2).calls =
      [{ url := url, bearer := st.accessToken, price_id := pid }, refreshCall] ∧
    (fetchWithAuth st stg url pid r1 rR r2).st =
      { isAuthenticated := false, user := none, accessToken := none, refreshToken := none } ∧
    (fetchWithAuth st stg url pid r1 rR r2).stg =
      { kn_access_token := none, kn_refresh_token := none, kn_user := none } := by
  simp [fetchWithAuth, refreshAccessToken, clearSession, ha, hr, h401, hfail]

/-- C2 witness: the amended statement at a concrete signed-in state whose
refresh the backend rejects. -/
theorem fetchWithAuth_401_refresh_fail_witness :
    (fetchWithAuth stA stgA userProfileUrl none resp401 resp500 resp200).result =
      Except.error FetchErr.sessionExpired ∧
    (fetchWithAuth stA stgA userProfileUrl none resp401 resp500 resp200).calls =
      [{ url := userProfileUrl, bearer := some "tokA", price_id := none }, refreshCall] ∧
    (fetchWithAuth stA stgA userProfileUrl none resp401 resp500 resp200).st =
      { isAuthenticated := false, user := none, accessToken := none, refreshToken := none } ∧
    (fetchWithAuth stA stgA userProfileUrl none resp401 resp500 resp200).stg =
      { kn_access_token := none, kn_refresh_token := none, kn_user := none } :=
  fetchWithAuth_401_refresh_fail stA stgA userProfileUrl none resp401 resp500 resp200
    rfl rfl rfl rfl

/-- C10 counterexample: when the stored refresh token differs from the
in-memory one, a successful refresh whose body has no refresh token still
overwrites the stored entry (with the in-memory value, via `saveSession`), so
the previously stored refresh token does not survive unchanged. -/
theorem refresh_keeps_refreshToken_cex :
    stC10.refreshToken = some "ref1" ∧ respC10.ok = true ∧
    respC10.access_token = some "tok2" ∧ respC10.refresh_token = none ∧
    (refreshAccessToken stC10 stgC10 respC10).ok = true ∧
    (refreshAccessToken stC10 stgC10 respC10).st.refreshToken = some "ref1" ∧
    (refreshAccessToken stC10 stgC10 respC10).stg.kn_refresh_token ≠ stgC10.kn_refresh_token := by
  have hx : (refreshAccessToken stC10 stgC10 respC10).stg.kn_refresh_token = some "ref1" := rfl
  refine ⟨rfl, rfl, rfl, rfl, rfl, rfl, ?_⟩
  rw [hx]
  decide

/-- C10 (amended): from a state whose non-empty refresh token matches the
stored one, a successful refresh whose body carries an access token but no
refresh token updates the access token, returns true, and leaves the refresh
token unchanged both in memory and in durable storage. -/
theorem refresh_keeps_refreshToken (st : AuthState) (stg : Storage) (rR : HttpResponse)
    (r a : String) (hr : st.refreshToken = some r) (hre : r ≠ "")
    (hstg : stg.kn_refresh_token = some r)
    (hok : rR.ok = true) (hacc : rR.access_token = some a) (hnor : rR.refresh_token = none) :
    (refreshAccessToken st stg rR).ok = true ∧
    (refreshAccessToken st stg rR).st.accessToken = some a ∧
    (refreshAccessToken st stg rR).st.refreshToken = some r ∧
    (refreshAccessToken st stg rR).stg.kn_refresh_token = stg.kn_refresh_token := by
  have htr : truthyS st.refreshToken = true := by
    rw [hr]
    simp [truthyS, hre]
  refine ⟨?_, ?_, ?_, ?_⟩
  · simp [refreshAccessToken, htr, hok]
  · simp [refreshAccessToken, htr, hok, hacc]
  · simp [refreshAccessToken, htr, hok, hnor, truthyS, hr, hre]
  · simp only [refreshAccessToken, htr, hok, if_true]
    rw [saveSession_refresh]
    simp [truthyS, hnor, hr, hre, hstg]

/-- C10 witness: the amended statement at a concrete coherent session. -/
theorem refresh_keeps_refreshToken_witness :
    (refreshAccessToken stA stgA respC10).ok = true ∧
    (refreshAccessToken stA stgA respC10).st.accessToken = some "tok2" ∧
    (refreshAccessToken stA stgA respC10).st.refreshToken = some "refA" ∧
    (refreshAccessToken stA stgA respC10).stg.kn_refresh_token = stgA.kn_refresh_token :=
  refresh_keeps_refreshToken stA stgA respC10 "refA" "tok2" rfl (by decide) rfl rfl rfl rfl

/-- Whatever the responses, the first request `fetchWithAuth` issues (when the
access token is truthy) is the original one, carrying the given body. -/
theorem fetchWithAuth_calls_head (st : AuthState) (stg : Storage) (url : String)
    (pid : Option String) (r1 rR r2 : HttpResponse)
    (ha : truthyS st.accessToken = true) :
    (fetchWithAuth st stg url pid r1 rR r2).calls.head? =
      some { url := url, bearer := st.accessToken, price_id := pid } := by
  simp only [fetchWithAuth, ha, if_true]
  split_ifs <;> rfl

/-- C5: a mapped tier-and-period pair makes `createCheckoutSession` send that
table entry as the body of its checkout request, while an unmapped pair
short-circuits with an error and zero backend calls, leaving state and storage
untouched. -/
theorem createCheckout_priceId (tier period : String) (st : AuthState) (stg : Storage)
    (r1 rR r2 : HttpResponse) :
    (∀ pid, stripePriceIds tier period = some pid → truthyS st.accessToken = true →
      (createCheckoutSession tier period st stg r1 rR r2).calls.head? =
        some { url := checkoutUrl, bearer := st.accessToken, price_id := some pid }) ∧
    (stripePriceIds tier period = none →
      (createCheckoutSession tier period st stg r1 rR r2).result = CheckoutResult.errorShown ∧
      (createCheckoutSession tier period st stg r1 rR r2).calls = [] ∧
      (createCheckoutSession tier period st stg r1 rR r2).st = st ∧
      (createCheckoutSession tier period st stg r1 rR r2).stg = stg) := by
  constructor
  · intro pid hmap ha
    cases hfr : (fetchWithAuth st stg checkoutUrl (some pid) r1 rR r2).result with
    | error e =>
      simp only [createCheckoutSession, hmap, hfr]
      exact fetchWithAuth_calls_head st stg checkoutUrl (some pid) r1 rR r2 ha
    | ok resp =>
      simp only [createCheckoutSession, hmap, hfr]
      by_cases hok : resp.ok = true
      · rw [if_pos hok]
        exact fetchWithAuth_calls_head st stg checkoutUrl (some pid) r1 rR r2 ha
      · rw [if_neg hok]
        exact fetchWithAuth_calls_head st stg checkoutUrl (some pid) r1 rR r2 ha
  · intro hnone
    simp [createCheckoutSession, hnone]

/-- C5 witness: tier pro with period annual resolves to `price_pro_annual` and
that entry rides in the checkout request body, while the unmapped tier
`nonexistent` yields an error and zero calls. -/
theorem createCheckout_priceId_witness :
    (createCheckoutSession "pro" "annual" stA stgA resp200 resp200 resp200).calls.head? =
      some { url := checkoutUrl, bearer := some "tokA", price_id := some "price_pro_annual" } ∧
    (createCheckoutSession "nonexistent" "monthly" stA stgA resp200 resp200 resp200).result =
      CheckoutResult.errorShown ∧
    (createCheckoutSession "nonexistent" "monthly" stA stgA resp200 resp200 resp200).calls = [] :=
  ⟨(createCheckout_priceId "pro" "annual" stA stgA resp200 resp200 resp200).1
      "price_pro_annual" rfl rfl,
   ((createCheckout_priceId "nonexistent" "monthly" stA stgA resp200 resp200 resp200).2 rfl).1,
   ((createCheckout_priceId "nonexistent" "monthly" stA stgA resp200 resp200 resp200).2 rfl).2.1⟩

/-- C6: an unauthenticated selection of tier team under monthly pricing stores
the pending pair and invokes signup with no checkout call; once a state is
authenticated, the pending-action check consumes the pair exactly once -
clearing both keys and firing `createCheckoutSession` for team and monthly -
and a further pending-action check on the cleared store is a no-op. -/
theorem selectPlan_pending_flow (st stA2 stB2 : AuthState) (stg stgA2 stgB2 : Storage)
    (sess : SessionStore) (m2 m3 : String)
    (r1 rR r2 r1' rR' r2' r1'' rR'' r2'' : HttpResponse)
    (hna : st.isAuthenticated = false) (hauth : stA2.isAuthenticated = true) :
    (selectPlan "team" "monthly" st stg sess r1 rR r2).outcome = PlanOutcome.signupFlow ∧
    (selectPlan "team" "monthly" st stg sess r1 rR r2).calls = [] ∧
    (selectPlan "team" "monthly" st stg sess r1 rR r2).sess =
      { pending_tier := some "team", pending_period := some "monthly" } ∧
    (checkPendingActions stA2 stgA2
        { pending_tier := some "team", pending_period := some "monthly" } m2 r1' rR' r2').fired =
      some ("team", "monthly") ∧
    (checkPendingActions stA2 stgA2
        { pending_tier := some "team", pending_period := some "monthly" } m2 r1' rR' r2').result =
      some (createCheckoutSession "team" "monthly" stA2 stgA2 r1' rR' r2').result ∧
    (checkPendingActions stA2 stgA2
        { pending_tier := some "team", pending_period := some "monthly" } m2 r1' rR' r2').sess =
      { pending_tier := none, pending_period := none } ∧
    (checkPendingActions stB2 stgB2
        { pending_tier := none, pending_period := none } m3 r1'' rR'' r2'').fired = none ∧
    (checkPendingActions stB2 stgB2
        { pending_tier := none, pending_period := none } m3 r1'' rR'' r2'').calls = [] ∧
    (checkPendingActions stB2 stgB2
        { pending_tier := none, pending_period := none } m3 r1'' rR'' r2'').sess =
      { pending_tier := none, pending_period := none } := by
  refine ⟨?_, ?_, ?_, ?_, ?_, ?_, ?_, ?_, ?_⟩
  · simp [selectPlan, hna]
  · simp [selectPlan, hna]
  · simp [selectPlan, hna]
  · simp [checkPendingActions, hauth]
  · simp [checkPendingActions, hauth]
  · simp [checkPendingActions, hauth]
  · simp [checkPendingActions]
  · simp [checkPendingActions]
  · simp [checkPendingActions]

/-- C6 witness: the flow at the constructor state and the signed-in sample
state. -/
theorem selectPlan_pending_flow_witness :
    (selectPlan "team" "monthly" initState stgEmpty
        { pending_tier := none, pending_period := none } resp200 resp200 resp200).outcome =
      PlanOutcome.signupFlow ∧
    (selectPlan "team" "monthly" initState stgEmpty
        { pending_tier := none, pending_period := none } resp200 resp200 resp200).sess =
      { pending_tier := some "team", pending_period := some "monthly" } ∧
    (checkPendingActions stA stgA
        { pending_tier := some "team", pending_period := some "monthly" }
        "monthly" resp200 resp200 resp200).fired = some ("team", "monthly") ∧
    (checkPendingActions stA stgA
        { pending_tier := some "team", pending_period := some "monthly" }
        "monthly" resp200 resp200 resp200).sess =
      { pending_tier := none, pending_period := none } := by
  have h := selectPlan_pending_flow initState stA stA stgEmpty stgA stgA
    { pending_tier := none, pending_period := none } "monthly" "monthly"
    resp200 resp200 resp200 resp200 resp200 resp200 resp200 resp200 resp200 rfl rfl
  exact ⟨h.1, h.2.2.1, h.2.2.2.1, h.2.2.2.2.2.1⟩

end KNexus
